import Mathlib

/-!
Verification of the loan-approval prediction app (`src/app.py`).

The app collects applicant fields through widgets, preprocesses them
(binarizing the default flag and deriving a debt-to-income ratio),
one-hot encodes the three categorical fields, aligns the resulting
single-row data frame to the loaded model's `feature_names_in_` schema,
and invokes `predict` / `predict_proba`.

A single-row pandas data frame is embedded as an ordered association
list of column names to rational values.  Numeric widget values are
integers or rationals; python floats are modelled by `ℚ`.  Exceptions
raised during the predict handler are modelled by `Except`.
-/

set_option autoImplicit false

namespace LoanApp

/-- A column name of a one-row data frame. -/
abbrev Col := String

/-- A single-row data frame: ordered columns with rational cell values. -/
abbrev Row := List (Col × ℚ)

/-- `col in df.columns` for a one-row frame. -/
def Row.hasCol (r : Row) (c : Col) : Bool :=
  (r.find? (fun p => p.1 == c)).isSome

/-- Cell lookup `df[c]`; defaults to 0 when the column is absent
(lookups in the development only occur on present columns). -/
def Row.get (r : Row) (c : Col) : ℚ :=
  ((r.find? (fun p => p.1 == c)).map Prod.snd).getD 0

/-- `person_home_ownership` selectbox values (app.py line 33). -/
inductive HomeOwnership where
  | OWN | RENT | MORTGAGE | OTHER
deriving DecidableEq

def HomeOwnership.str : HomeOwnership → String
  | .OWN => "OWN"
  | .RENT => "RENT"
  | .MORTGAGE => "MORTGAGE"
  | .OTHER => "OTHER"

/-- `loan_intent` selectbox values (app.py line 39). -/
inductive LoanIntent where
  | EDUCATION | MEDICAL | VENTURE | PERSONAL | HOMEIMPROVEMENT | DEBTCONSOLIDATION
deriving DecidableEq

def LoanIntent.str : LoanIntent → String
  | .EDUCATION => "EDUCATION"
  | .MEDICAL => "MEDICAL"
  | .VENTURE => "VENTURE"
  | .PERSONAL => "PERSONAL"
  | .HOMEIMPROVEMENT => "HOMEIMPROVEMENT"
  | .DEBTCONSOLIDATION => "DEBTCONSOLIDATION"

/-- `loan_grade` selectbox values (app.py line 40). -/
inductive LoanGrade where
  | A | B | C | D | E | F | G
deriving DecidableEq

def LoanGrade.str : LoanGrade → String
  | .A => "A"
  | .B => "B"
  | .C => "C"
  | .D => "D"
  | .E => "E"
  | .F => "F"
  | .G => "G"

/-- One applicant record, as produced by the input widgets
(app.py lines 30-43).  The default-on-file field is kept as the raw
selectbox string, mirroring the string comparison at line 67. -/
structure ApplicantRecord where
  person_age : ℤ
  person_income : ℤ
  person_emp_length : ℤ
  person_home_ownership : HomeOwnership
  cb_person_default_on_file : String
  cb_person_cred_hist_length : ℤ
  loan_intent : LoanIntent
  loan_grade : LoanGrade
  loan_amnt : ℤ
  loan_int_rate : ℚ
  loan_percent_income : ℚ

/-- Options of the `Default on File` selectbox (app.py line 34). -/
def defaultOnFileOptions : List String := ["Y", "N"]

/-- `1 if cb_person_default_on_file == "Y" else 0` (app.py line 67). -/
def cbBin (s : String) : ℚ :=
  if s = "Y" then 1 else 0

/-- `loan_amnt / max(person_income, 1)` (app.py line 68): the `max` is a
python integer max, the division is exact (modelled in `ℚ`). -/
def debtPerIncome (loan income : ℤ) : ℚ :=
  (loan : ℚ) / ((max income 1 : ℤ) : ℚ)

/-- `numeric_df` (app.py lines 71-81), in column order. -/
def numericRow (r : ApplicantRecord) : Row :=
  [("person_age", (r.person_age : ℚ)),
   ("person_income", (r.person_income : ℚ)),
   ("person_emp_length", (r.person_emp_length : ℚ)),
   ("loan_amnt", (r.loan_amnt : ℚ)),
   ("loan_int_rate", r.loan_int_rate),
   ("loan_percent_income", r.loan_percent_income),
   ("cb_person_cred_hist_length", (r.cb_person_cred_hist_length : ℚ)),
   ("cb_person_default_on_file", cbBin r.cb_person_default_on_file),
   ("debt_to_income_ratio", debtPerIncome r.loan_amnt r.person_income)]

/-- `pd.get_dummies(cat_df)` on the one-row categorical frame
(app.py lines 84-91): one indicator column per categorical field, named
with the selected value as suffix, holding 1. -/
def catRowEncoded (r : ApplicantRecord) : Row :=
  [("person_home_ownership_" ++ r.person_home_ownership.str, 1),
   ("loan_intent_" ++ r.loan_intent.str, 1),
   ("loan_grade_" ++ r.loan_grade.str, 1)]

/-- `input_df = pd.concat([numeric_df, cat_df_encoded], axis=1)`
(app.py line 94). -/
def inputRow (r : ApplicantRecord) : Row :=
  numericRow r ++ catRowEncoded r

/-- The loop at app.py lines 98-100: for every model column absent from
`input_df`, append it with value 0. -/
def addMissingCols (r : Row) (cols : List Col) : Row :=
  cols.foldl (fun acc c => if acc.hasCol c then acc else acc ++ [(c, 0)]) r

/-- `input_df[model_columns]` (app.py line 103): select the schema
columns in schema order; `none` models the `KeyError` pandas raises
when a requested column is missing. -/
def reindex (r : Row) : List Col → Option Row
  | [] => some []
  | c :: cs =>
    match r.find? (fun p => p.1 == c) with
    | none => none
    | some p => (reindex r cs).map (fun rest => (c, p.2) :: rest)

/-- Schema alignment (app.py lines 96-103): insert missing schema
columns as 0, then restrict and reorder to the schema. -/
def alignToSchema (r : Row) (cols : List Col) : Option Row :=
  reindex (addMissingCols r cols) cols

/-- The loaded classifier artifact.  `feature_names` models the
`feature_names_in_` attribute (absent when `none`); `predict_proba`
models the optional probability interface, the pair being the one
row of class probabilities `[p0, p1]`. -/
structure Model where
  feature_names : Option (List Col)
  predictFn : Row → ℚ
  predict_proba : Option (Row → ℚ × ℚ)

/-- Python exceptions the predict handler can raise: attribute access
on a missing attribute, or a pandas key error. -/
inductive PyError where
  | attributeError (msg : String)
  | keyError (msg : String)
deriving DecidableEq

def errText : PyError → String
  | .attributeError m => m
  | .keyError m => m

/-- What the result panel shows on a successful prediction
(app.py lines 115-121): the decision message and, when
`predict_proba` exists, the displayed probability value. -/
structure Rendered where
  decision : String
  probaShown : Option ℚ
deriving DecidableEq

def approvedMsg : String := "✅ Loan Approved!"
def notApprovedMsg : String := "❌ Loan Not Approved!"

/-- Body of the `try` block of the predict button handler
(app.py lines 65-121). -/
def predictAction (m : Model) (r : ApplicantRecord) : Except PyError Rendered :=
  match m.feature_names with
  | none => .error (.attributeError "object has no attribute feature_names_in_")
  | some cols =>
    match alignToSchema (inputRow r) cols with
    | none => .error (.keyError "columns not in index")
    | some aligned =>
      let prediction := m.predictFn aligned
      let proba := m.predict_proba.map (fun f => (f aligned).2)
      .ok { decision := if prediction = 1 then approvedMsg else notApprovedMsg,
            probaShown := proba }

/-- What the page displays after pressing Predict. -/
inductive UiOut where
  | shown (out : Rendered)
  | errorMsg (msg : String)
deriving DecidableEq

/-- The predict button handler with its `except Exception` clause
(app.py lines 64-124): any exception becomes an error display. -/
def predictButtonHandler (m : Model) (r : ApplicantRecord) : UiOut :=
  match predictAction m r with
  | .ok out => .shown out
  | .error e => .errorMsg ("Error during prediction: " ++ errText e)

/-- Warning texts (app.py lines 46-59). -/
def ageWarning : String := "⚠ Age should be between 20 and 75 years."

def incomeWarning : String := "⚠ Income should be atleast 10000."

def empWarning : String := "⚠ Employment length should be between 0 and 50 years."

def loanAmtWarning : String := "⚠ Loan amount should be atleast 5000."

def intRateWarning : String := "⚠ Interest rate should be between 5% and 25%."

/-- The advisory warnings rendered for a record (app.py lines 46-59),
in source order.  They are pure display; the record itself is passed on
unchanged. -/
def warnings (r : ApplicantRecord) : List String :=
  (if ¬(20 ≤ r.person_age ∧ r.person_age ≤ 75) then [ageWarning] else []) ++
  (if ¬(10000 ≤ r.person_income) then [incomeWarning] else []) ++
  (if ¬(0 ≤ r.person_emp_length ∧ r.person_emp_length ≤ 50) then [empWarning] else []) ++
  (if ¬(5000 ≤ r.loan_amnt) then [loanAmtWarning] else []) ++
  (if ¬(5 ≤ r.loan_int_rate ∧ r.loan_int_rate ≤ 25) then [intRateWarning] else [])

/-- The records the input widgets can actually produce: `st.number_input`
clamps each value to its `min_value`/`max_value` (app.py lines 30-43) and
each selectbox yields one of its options. -/
def WidgetProducible (r : ApplicantRecord) : Prop :=
  18 ≤ r.person_age ∧ r.person_age ≤ 75 ∧
  10000 ≤ r.person_income ∧
  0 ≤ r.person_emp_length ∧ r.person_emp_length ≤ 50 ∧
  0 ≤ r.cb_person_cred_hist_length ∧
  5000 ≤ r.loan_amnt ∧
  5 ≤ r.loan_int_rate ∧ r.loan_int_rate ≤ 25 ∧
  0 ≤ r.loan_percent_income ∧
  r.cb_person_default_on_file ∈ defaultOnFileOptions

/-- `MODEL_PATH` (app.py line 9), relative to the app directory. -/
def MODEL_PATH : String := "Model/best_xgb.pkl"

/-- The page chrome rendered once the model is loaded
(app.py lines 19-21). -/
def startupUi : List String :=
  ["💳 Loan Approval Prediction",
   "Fill in the details below to predict whether the loan will be approved."]

/-- State after a successful startup: the loaded model and the rendered
page chrome. -/
structure AppStart where
  loadedModel : Model
  uiRendered : List String

/-- Startup (app.py lines 9-21): if the model file is absent the process
dies with a `FileNotFoundError` naming the path, before any UI exists;
otherwise the model is loaded and the page renders. -/
def startup (fileExists : String → Bool) (loadModel : String → Model) :
    Except String AppStart :=
  if fileExists MODEL_PATH then
    .ok { loadedModel := loadModel MODEL_PATH, uiRendered := startupUi }
  else
    .error ("❌ Model file not found at: " ++ MODEL_PATH)

/-- The end-to-end scenario 1 record of the spec (also the widget
defaults): age 30, income 50000, employment 5, RENT, no default,
credit history 10, EDUCATION, grade B, amount 10000, rate 12.5,
percent-of-income 0.2. -/
def scenario1 : ApplicantRecord :=
  { person_age := 30
    person_income := 50000
    person_emp_length := 5
    person_home_ownership := .RENT
    cb_person_default_on_file := "N"
    cb_person_cred_hist_length := 10
    loan_intent := .EDUCATION
    loan_grade := .B
    loan_amnt := 10000
    loan_int_rate := 25 / 2
    loan_percent_income := 1 / 5 }

/-- The nine numeric columns of `numeric_df`, in frame order. -/
def numericCols : List Col :=
  ["person_age", "person_income", "person_emp_length", "loan_amnt",
   "loan_int_rate", "loan_percent_income", "cb_person_cred_hist_length",
   "cb_person_default_on_file", "debt_to_income_ratio"]

/-- The full one-hot indicator universe over the three categorical
fields (spec §3). -/
def indicatorCols : List Col :=
  ["person_home_ownership_MORTGAGE", "person_home_ownership_OTHER",
   "person_home_ownership_OWN", "person_home_ownership_RENT",
   "loan_intent_DEBTCONSOLIDATION", "loan_intent_EDUCATION",
   "loan_intent_HOMEIMPROVEMENT", "loan_intent_MEDICAL",
   "loan_intent_PERSONAL", "loan_intent_VENTURE",
   "loan_grade_A", "loan_grade_B", "loan_grade_C", "loan_grade_D",
   "loan_grade_E", "loan_grade_F", "loan_grade_G"]

/-- A training-time schema carrying every numeric column and the full
indicator universe, used to instantiate the end-to-end scenario. -/
def fullSchema : List Col := numericCols ++ indicatorCols

/-- The feature vector the spec's scenario 1 expects after alignment to
`fullSchema`: raw numerics, ratio `0.2`, default flag `0`, indicators
1 exactly at RENT / EDUCATION / B. -/
def scenario1Vector : Row :=
  [("person_age", 30), ("person_income", 50000), ("person_emp_length", 5),
   ("loan_amnt", 10000), ("loan_int_rate", 25 / 2),
   ("loan_percent_income", 1 / 5), ("cb_person_cred_hist_length", 10),
   ("cb_person_default_on_file", 0), ("debt_to_income_ratio", 1 / 5),
   ("person_home_ownership_MORTGAGE", 0), ("person_home_ownership_OTHER", 0),
   ("person_home_ownership_OWN", 0), ("person_home_ownership_RENT", 1),
   ("loan_intent_DEBTCONSOLIDATION", 0), ("loan_intent_EDUCATION", 1),
   ("loan_intent_HOMEIMPROVEMENT", 0), ("loan_intent_MEDICAL", 0),
   ("loan_intent_PERSONAL", 0), ("loan_intent_VENTURE", 0),
   ("loan_grade_A", 0), ("loan_grade_B", 1), ("loan_grade_C", 0),
   ("loan_grade_D", 0), ("loan_grade_E", 0), ("loan_grade_F", 0),
   ("loan_grade_G", 0)]

/-! ### Lemmas about schema alignment -/

theorem hasCol_append_left {r s : Row} {c : Col} (h : r.hasCol c) :
    (r ++ s).hasCol c := by
  unfold Row.hasCol at *
  rw [List.find?_append]
  obtain ⟨x, hx⟩ := Option.isSome_iff_exists.1 h
  simp [hx]

/-- A column lookup that succeeds on `input_df` returns the same entry
after the missing-column loop. -/
theorem addMissingCols_find?_of_some (cols : List Col) (acc : Row)
    (q : Col × ℚ → Bool) (x : Col × ℚ) (h : acc.find? q = some x) :
    (addMissingCols acc cols).find? q = some x := by
  induction cols generalizing acc with
  | nil => exact h
  | cons d cs ih =>
    show (addMissingCols (if acc.hasCol d then acc else acc ++ [(d, 0)]) cs).find? q = some x
    cases hd : acc.hasCol d with
    | true => exact ih acc h
    | false => exact ih (acc ++ [(d, 0)]) (by rw [List.find?_append, h]; rfl)

/-- Every entry the missing-column loop can produce is either an entry
of `input_df` or a zero fill. -/
theorem mem_addMissingCols (cols : List Col) (acc : Row) (x : Col × ℚ)
    (hx : x ∈ addMissingCols acc cols) : x ∈ acc ∨ x.2 = 0 := by
  induction cols generalizing acc with
  | nil => exact .inl hx
  | cons d cs ih =>
    have hx' : x ∈ addMissingCols (if acc.hasCol d then acc else acc ++ [(d, 0)]) cs := hx
    rcases ih _ hx' with h | h
    · cases hd : acc.hasCol d with
      | true => rw [hd] at h; simp only [if_true] at h; exact .inl h
      | false =>
        rw [hd] at h
        simp only [Bool.false_eq_true, if_false] at h
        rcases List.mem_append.1 h with h | h
        · exact .inl h
        · simp only [List.mem_singleton] at h
          subst h
          exact .inr rfl
    · exact .inr h

/-- After the loop at app.py lines 98-100, every schema column is
present (and already-present columns stay present). -/
theorem hasCol_addMissingCols (cols : List Col) (acc : Row) (c : Col)
    (h : c ∈ cols ∨ acc.hasCol c) : (addMissingCols acc cols).hasCol c := by
  induction cols generalizing acc with
  | nil =>
    rcases h with h | h
    · cases h
    · exact h
  | cons d cs ih =>
    show (addMissingCols (if acc.hasCol d then acc else acc ++ [(d, 0)]) cs).hasCol c
    refine ih _ ?_
    rcases h with h | h
    · rcases List.mem_cons.1 h with rfl | h
      · right
        cases hd : acc.hasCol c with
        | true => exact hd
        | false =>
          show (acc ++ [(c, 0)]).hasCol c = true
          unfold Row.hasCol at hd ⊢
          rw [List.find?_append]
          cases hfind : acc.find? (fun p => p.1 == c) with
          | none =>
            have hone : List.find? (fun p => p.1 == c) [((c : Col), (0 : ℚ))] = some (c, 0) :=
              List.find?_cons_of_pos _ (by simp)
            simp [hone]
          | some x => rw [hfind] at hd; simp at hd
      · exact .inl h
    · right
      cases hd : acc.hasCol d with
      | true => exact h
      | false => exact hasCol_append_left h

/-- Cell values after the missing-column loop: present columns keep
their value, inserted columns are 0. -/
theorem get_addMissingCols (r : Row) (cols : List Col) (c : Col) :
    Row.get (addMissingCols r cols) c = if r.hasCol c then Row.get r c else 0 := by
  cases hr : r.hasCol c with
  | true =>
    obtain ⟨x, hx⟩ := Option.isSome_iff_exists.1 hr
    show Row.get (addMissingCols r cols) c = Row.get r c
    unfold Row.get
    rw [addMissingCols_find?_of_some cols r _ x hx, hx]
  | false =>
    show Row.get (addMissingCols r cols) c = 0
    unfold Row.get
    cases hf : (addMissingCols r cols).find? (fun p => p.1 == c) with
    | none => rfl
    | some x =>
      have hmem := List.mem_of_find?_eq_some hf
      have hpx := List.find?_some hf
      rcases mem_addMissingCols cols r x hmem with h | h
      · exfalso
        have hsome : (r.find? (fun p => p.1 == c)).isSome := List.find?_isSome.2 ⟨x, h, hpx⟩
        unfold Row.hasCol at hr
        rw [hr] at hsome
        exact Bool.false_ne_true hsome
      · simp [h]

/-- `input_df[model_columns]` succeeds when every schema column is
present, and returns the schema columns in schema order with their
values. -/
theorem reindex_eq_of_hasCol (r : Row) (cols : List Col)
    (h : ∀ c ∈ cols, r.hasCol c) :
    reindex r cols = some (cols.map fun c => (c, Row.get r c)) := by
  induction cols with
  | nil => rfl
  | cons d cs ih =>
    have hd := h d (List.mem_cons_self d cs)
    obtain ⟨p, hp⟩ := Option.isSome_iff_exists.1 hd
    have hval : Row.get r d = p.2 := by
      unfold Row.get
      rw [hp]
      rfl
    simp [reindex, hp, ih (fun c hc => h c (List.mem_cons_of_mem _ hc)), hval]

/-- Characterization of the whole alignment step (app.py lines 96-103):
it always succeeds, and produces exactly the schema columns in schema
order, keeping the value of columns present in `input_df` and filling
all others with 0. -/
theorem alignToSchema_eq (r : Row) (cols : List Col) :
    alignToSchema r cols =
      some (cols.map fun c => (c, if r.hasCol c then Row.get r c else 0)) := by
  unfold alignToSchema
  rw [reindex_eq_of_hasCol _ _ (fun c hc => hasCol_addMissingCols cols r c (.inl hc))]
  congr 1
  apply List.map_congr_left
  intro c _
  rw [get_addMissingCols]

/-- The vector produced by the alignment step for record `r` and
schema `cols`. -/
def alignedRow (r : ApplicantRecord) (cols : List Col) : Row :=
  cols.map fun c => (c, if (inputRow r).hasCol c then Row.get (inputRow r) c else 0)

theorem alignToSchema_inputRow (r : ApplicantRecord) (cols : List Col) :
    alignToSchema (inputRow r) cols = some (alignedRow r cols) :=
  alignToSchema_eq _ _

/-- Reduction of the predict handler when the model exposes a schema:
it always reaches the render step, prediction and probability being
taken on the aligned row. -/
theorem predictAction_some (m : Model) (r : ApplicantRecord) (cols : List Col)
    (hm : m.feature_names = some cols) :
    predictAction m r =
      .ok { decision := if m.predictFn (alignedRow r cols) = 1
              then approvedMsg else notApprovedMsg,
            probaShown := m.predict_proba.map (fun f => (f (alignedRow r cols)).2) } := by
  simp only [predictAction, hm, alignToSchema_inputRow]

/-! ### Helper lemmas for warnings -/

theorem mem_ite_singleton {α : Type _} {c : Prop} [Decidable c] {x a : α} :
    (x ∈ if c then [a] else []) ↔ c ∧ x = a := by
  by_cases h : c <;> simp [h]

/-- Membership in the rendered warning list, by case (app.py
lines 46-59). -/
theorem mem_warnings_iff (w : String) (r : ApplicantRecord) :
    w ∈ warnings r ↔
      (¬(20 ≤ r.person_age ∧ r.person_age ≤ 75) ∧ w = ageWarning) ∨
      (¬(10000 ≤ r.person_income) ∧ w = incomeWarning) ∨
      (¬(0 ≤ r.person_emp_length ∧ r.person_emp_length ≤ 50) ∧ w = empWarning) ∨
      (¬(5000 ≤ r.loan_amnt) ∧ w = loanAmtWarning) ∨
      (¬(5 ≤ r.loan_int_rate ∧ r.loan_int_rate ≤ 25) ∧ w = intRateWarning) := by
  unfold warnings
  simp only [List.mem_append, mem_ite_singleton]
  tauto

/-- Stub classifiers used to instantiate theorems about an arbitrary
loaded model. -/
def stubNoSchemaModel : Model :=
  { feature_names := none, predictFn := fun _ => 0, predict_proba := none }

def stubProbaModel : Model :=
  { feature_names := some fullSchema, predictFn := fun _ => 1,
    predict_proba := some (fun _ => (1 / 2, 1 / 2)) }

def stubPlainModel : Model :=
  { feature_names := some fullSchema, predictFn := fun _ => 1,
    predict_proba := none }

/-- Scenario 1 with the income widget value replaced by 0, for the
division-by-zero guard. -/
def zeroIncomeRecord : ApplicantRecord :=
  { scenario1 with person_income := 0 }

/-! ### Claims -/

/-- Claim C1: for every applicant record and every selection of
categorical values, the feature vector handed to `model.predict` has
column set exactly the model schema, in schema order: schema columns
missing after one-hot encoding are filled with 0 and encoded columns
outside the schema are dropped. -/
theorem align_matches_model_schema (m : Model) (r : ApplicantRecord)
    (schema : List Col) (hm : m.feature_names = some schema) :
    ∃ fv, alignToSchema (inputRow r) schema = some fv ∧
      fv.map Prod.fst = schema ∧
      fv = schema.map (fun c =>
        (c, if (inputRow r).hasCol c then Row.get (inputRow r) c else 0)) ∧
      predictAction m r =
        .ok { decision := if m.predictFn fv = 1 then approvedMsg else notApprovedMsg,
              probaShown := m.predict_proba.map (fun f => (f fv).2) } := by
  refine ⟨alignedRow r schema, alignToSchema_inputRow _ _, ?_, rfl,
    predictAction_some m r schema hm⟩
  unfold alignedRow
  rw [List.map_map]
  exact List.map_id schema

/-- Witness for C1 at the scenario record and the full schema. -/
theorem align_matches_model_schema_witness :
    ∃ fv, alignToSchema (inputRow scenario1) fullSchema = some fv ∧
      fv.map Prod.fst = fullSchema ∧
      fv = fullSchema.map (fun c =>
        (c, if (inputRow scenario1).hasCol c then Row.get (inputRow scenario1) c else 0)) ∧
      predictAction stubPlainModel scenario1 =
        .ok { decision := if stubPlainModel.predictFn fv = 1 then approvedMsg else notApprovedMsg,
              probaShown := stubPlainModel.predict_proba.map (fun f => (f fv).2) } :=
  align_matches_model_schema stubPlainModel scenario1 fullSchema rfl

/-- Claim C2: the default-on-file binarization maps "Y" to 1 and "N"
to 0, and the selectbox offers exactly these two values. -/
theorem cb_default_binarization :
    cbBin "Y" = 1 ∧ cbBin "N" = 0 ∧ defaultOnFileOptions = ["Y", "N"] := by
  decide

/-- Claim C3: the derived debt-to-income ratio is
`loan_amnt / max(income, 1)`; at income 0 it equals `loan_amnt / 1`,
with no division-by-zero failure (the computation is total). -/
theorem debt_ratio_guarded (r : ApplicantRecord) :
    Row.get (numericRow r) "debt_to_income_ratio"
        = (r.loan_amnt : ℚ) / ((max r.person_income 1 : ℤ) : ℚ) ∧
      (r.person_income = 0 →
        Row.get (numericRow r) "debt_to_income_ratio" = (r.loan_amnt : ℚ) / 1) := by
  have h1 : Row.get (numericRow r) "debt_to_income_ratio"
      = (r.loan_amnt : ℚ) / ((max r.person_income 1 : ℤ) : ℚ) := rfl
  refine ⟨h1, fun h0 => ?_⟩
  rw [h1, h0]
  norm_num

/-- Witness for C3 at a zero-income record. -/
theorem debt_ratio_guarded_witness :
    zeroIncomeRecord.person_income = 0 ∧
    Row.get (numericRow zeroIncomeRecord) "debt_to_income_ratio"
      = (zeroIncomeRecord.loan_amnt : ℚ) / 1 :=
  ⟨rfl, (debt_ratio_guarded zeroIncomeRecord).2 rfl⟩

/-- Claim C4: when the loaded model exposes no schema, the alignment
step fails with the distinct missing-attribute error (python's
`AttributeError` on `feature_names_in_`), not by succeeding and not
with an undifferentiated error. -/
theorem schema_unavailable_error (m : Model) (r : ApplicantRecord)
    (h : m.feature_names = none) :
    predictAction m r =
      .error (.attributeError "object has no attribute feature_names_in_") := by
  unfold predictAction
  rw [h]

/-- Witness for C4 on a schema-less stub model. -/
theorem schema_unavailable_error_witness :
    predictAction stubNoSchemaModel scenario1 =
      .error (.attributeError "object has no attribute feature_names_in_") :=
  schema_unavailable_error stubNoSchemaModel scenario1 rfl

/-- Claim C5: without a `predict_proba` attribute the handler still
succeeds, the probability line is omitted and the decision message is
still one of the two decision texts; with the attribute, the displayed
value is the positive-class probability, which lies in `[0, 1]` for a
probability interface. -/
theorem proba_optional (m : Model) (r : ApplicantRecord) (cols : List Col)
    (hcols : m.feature_names = some cols)
    (hprob : ∀ f row, m.predict_proba = some f → 0 ≤ (f row).2 ∧ (f row).2 ≤ 1) :
    ∃ out, predictAction m r = .ok out ∧
      (out.decision = approvedMsg ∨ out.decision = notApprovedMsg) ∧
      (m.predict_proba = none → out.probaShown = none) ∧
      (∀ f, m.predict_proba = some f →
        ∃ fv, alignToSchema (inputRow r) cols = some fv ∧
          out.probaShown = some ((f fv).2) ∧ 0 ≤ (f fv).2 ∧ (f fv).2 ≤ 1) := by
  refine ⟨_, predictAction_some m r cols hcols, ?_, ?_, ?_⟩
  · by_cases h : m.predictFn (alignedRow r cols) = 1
    · exact .inl (by simp [h])
    · exact .inr (by simp [h])
  · intro hnone
    simp [hnone]
  · intro f hf
    exact ⟨alignedRow r cols, alignToSchema_inputRow _ _, by simp [hf],
      (hprob f _ hf).1, (hprob f _ hf).2⟩

/-- Witness for C5 on a stub model exposing a probability interface. -/
theorem proba_optional_witness :
    ∃ out, predictAction stubProbaModel scenario1 = .ok out ∧
      (out.decision = approvedMsg ∨ out.decision = notApprovedMsg) ∧
      (stubProbaModel.predict_proba = none → out.probaShown = none) ∧
      (∀ f, stubProbaModel.predict_proba = some f →
        ∃ fv, alignToSchema (inputRow scenario1) fullSchema = some fv ∧
          out.probaShown = some ((f fv).2) ∧ 0 ≤ (f fv).2 ∧ (f fv).2 ≤ 1) :=
  proba_optional stubProbaModel scenario1 fullSchema rfl
    (by
      intro f row hf
      injection hf with hf
      subst hf
      exact ⟨by norm_num, by norm_num⟩)

/-- Claim C6: every exception of the predict action is caught by the
handler and turned into a visible error message that carries the
exception text; the handler always produces a display, so nothing
propagates beyond the request. -/
theorem errors_surfaced (m : Model) (r : ApplicantRecord) :
    (∃ out, predictAction m r = .ok out ∧ predictButtonHandler m r = .shown out) ∨
    (∃ e, predictAction m r = .error e ∧
      predictButtonHandler m r = .errorMsg ("Error during prediction: " ++ errText e)) := by
  unfold predictButtonHandler
  cases h : predictAction m r with
  | ok out => exact .inl ⟨out, rfl, rfl⟩
  | error e => exact .inr ⟨e, rfl, rfl⟩

/-- Claim C7: an absent model file stops startup with a descriptive
fatal error and no UI; a present file loads the model and renders the
page chrome. -/
theorem startup_fatal_or_renders (fe : String → Bool) (lm : String → Model) :
    (fe MODEL_PATH = false →
      startup fe lm = .error ("❌ Model file not found at: " ++ MODEL_PATH)) ∧
    (fe MODEL_PATH = true →
      startup fe lm = .ok { loadedModel := lm MODEL_PATH, uiRendered := startupUi } ∧
      startupUi ≠ []) := by
  constructor
  · intro h
    unfold startup
    rw [h]
    simp
  · intro h
    unfold startup
    rw [h]
    exact ⟨rfl, by decide⟩

/-- Witness for C7 for both an absent and a present model file. -/
theorem startup_fatal_or_renders_witness :
    startup (fun _ => false) (fun _ => stubPlainModel)
        = .error ("❌ Model file not found at: " ++ MODEL_PATH) ∧
    startup (fun _ => true) (fun _ => stubPlainModel)
        = .ok { loadedModel := stubPlainModel, uiRendered := startupUi } :=
  ⟨(startup_fatal_or_renders (fun _ => false) (fun _ => stubPlainModel)).1 rfl,
   ((startup_fatal_or_renders (fun _ => true) (fun _ => stubPlainModel)).2 rfl).1⟩

/-- Claim C8: the five advisory checks warn exactly when their value is
out of the stated range, no other warning exists, and the raw values
flow unchanged into the feature row regardless of the warnings. -/
theorem advisory_warnings (r : ApplicantRecord) :
    ((ageWarning ∈ warnings r) ↔ ¬(20 ≤ r.person_age ∧ r.person_age ≤ 75)) ∧
    ((incomeWarning ∈ warnings r) ↔ ¬(10000 ≤ r.person_income)) ∧
    ((empWarning ∈ warnings r) ↔ ¬(0 ≤ r.person_emp_length ∧ r.person_emp_length ≤ 50)) ∧
    ((loanAmtWarning ∈ warnings r) ↔ ¬(5000 ≤ r.loan_amnt)) ∧
    ((intRateWarning ∈ warnings r) ↔ ¬(5 ≤ r.loan_int_rate ∧ r.loan_int_rate ≤ 25)) ∧
    (warnings r).all (fun w =>
      w == ageWarning || w == incomeWarning || w == empWarning ||
      w == loanAmtWarning || w == intRateWarning) = true ∧
    Row.get (inputRow r) "person_age" = (r.person_age : ℚ) ∧
    Row.get (inputRow r) "person_income" = (r.person_income : ℚ) ∧
    Row.get (inputRow r) "person_emp_length" = (r.person_emp_length : ℚ) ∧
    Row.get (inputRow r) "loan_amnt" = (r.loan_amnt : ℚ) ∧
    Row.get (inputRow r) "loan_int_rate" = r.loan_int_rate := by
  refine ⟨?_, ?_, ?_, ?_, ?_, ?_, rfl, rfl, rfl, rfl, rfl⟩
  · rw [mem_warnings_iff]
    constructor
    · rintro (⟨hc, _⟩ | ⟨_, he⟩ | ⟨_, he⟩ | ⟨_, he⟩ | ⟨_, he⟩)
      · exact hc
      · exact absurd he (by decide)
      · exact absurd he (by decide)
      · exact absurd he (by decide)
      · exact absurd he (by decide)
    · exact fun hc => .inl ⟨hc, rfl⟩
  · rw [mem_warnings_iff]
    constructor
    · rintro (⟨_, he⟩ | ⟨hc, _⟩ | ⟨_, he⟩ | ⟨_, he⟩ | ⟨_, he⟩)
      · exact absurd he (by decide)
      · exact hc
      · exact absurd he (by decide)
      · exact absurd he (by decide)
      · exact absurd he (by decide)
    · exact fun hc => .inr (.inl ⟨hc, rfl⟩)
  · rw [mem_warnings_iff]
    constructor
    · rintro (⟨_, he⟩ | ⟨_, he⟩ | ⟨hc, _⟩ | ⟨_, he⟩ | ⟨_, he⟩)
      · exact absurd he (by decide)
      · exact absurd he (by decide)
      · exact hc
      · exact absurd he (by decide)
      · exact absurd he (by decide)
    · exact fun hc => .inr (.inr (.inl ⟨hc, rfl⟩))
  · rw [mem_warnings_iff]
    constructor
    · rintro (⟨_, he⟩ | ⟨_, he⟩ | ⟨_, he⟩ | ⟨hc, _⟩ | ⟨_, he⟩)
      · exact absurd he (by decide)
      · exact absurd he (by decide)
      · exact absurd he (by decide)
      · exact hc
      · exact absurd he (by decide)
    · exact fun hc => .inr (.inr (.inr (.inl ⟨hc, rfl⟩)))
  · rw [mem_warnings_iff]
    constructor
    · rintro (⟨_, he⟩ | ⟨_, he⟩ | ⟨_, he⟩ | ⟨_, he⟩ | ⟨hc, _⟩)
      · exact absurd he (by decide)
      · exact absurd he (by decide)
      · exact absurd he (by decide)
      · exact absurd he (by decide)
      · exact hc
    · exact fun hc => .inr (.inr (.inr (.inr ⟨hc, rfl⟩)))
  · rw [List.all_eq_true]
    intro w hw
    rw [mem_warnings_iff] at hw
    rcases hw with ⟨_, rfl⟩ | ⟨_, rfl⟩ | ⟨_, rfl⟩ | ⟨_, rfl⟩ | ⟨_, rfl⟩ <;> decide

/-- Witness for C8 at a record with age 19, which the age widget allows
but the advisory check warns about. -/
theorem advisory_warnings_witness :
    ((ageWarning ∈ warnings { scenario1 with person_age := 19 }) ↔
      ¬(20 ≤ ({ scenario1 with person_age := 19 } : ApplicantRecord).person_age ∧
        ({ scenario1 with person_age := 19 } : ApplicantRecord).person_age ≤ 75)) ∧
    ((incomeWarning ∈ warnings { scenario1 with person_age := 19 }) ↔
      ¬(10000 ≤ ({ scenario1 with person_age := 19 } : ApplicantRecord).person_income)) ∧
    ((empWarning ∈ warnings { scenario1 with person_age := 19 }) ↔
      ¬(0 ≤ ({ scenario1 with person_age := 19 } : ApplicantRecord).person_emp_length ∧
        ({ scenario1 with person_age := 19 } : ApplicantRecord).person_emp_length ≤ 50)) ∧
    ((loanAmtWarning ∈ warnings { scenario1 with person_age := 19 }) ↔
      ¬(5000 ≤ ({ scenario1 with person_age := 19 } : ApplicantRecord).loan_amnt)) ∧
    ((intRateWarning ∈ warnings { scenario1 with person_age := 19 }) ↔
      ¬(5 ≤ ({ scenario1 with person_age := 19 } : ApplicantRecord).loan_int_rate ∧
        ({ scenario1 with person_age := 19 } : ApplicantRecord).loan_int_rate ≤ 25)) ∧
    (warnings { scenario1 with person_age := 19 }).all (fun w =>
      w == ageWarning || w == incomeWarning || w == empWarning ||
      w == loanAmtWarning || w == intRateWarning) = true ∧
    Row.get (inputRow { scenario1 with person_age := 19 }) "person_age"
      = (({ scenario1 with person_age := 19 } : ApplicantRecord).person_age : ℚ) ∧
    Row.get (inputRow { scenario1 with person_age := 19 }) "person_income"
      = (({ scenario1 with person_age := 19 } : ApplicantRecord).person_income : ℚ) ∧
    Row.get (inputRow { scenario1 with person_age := 19 }) "person_emp_length"
      = (({ scenario1 with person_age := 19 } : ApplicantRecord).person_emp_length : ℚ) ∧
    Row.get (inputRow { scenario1 with person_age := 19 }) "loan_amnt"
      = (({ scenario1 with person_age := 19 } : ApplicantRecord).loan_amnt : ℚ) ∧
    Row.get (inputRow { scenario1 with person_age := 19 }) "loan_int_rate"
      = ({ scenario1 with person_age := 19 } : ApplicantRecord).loan_int_rate :=
  advisory_warnings { scenario1 with person_age := 19 }

unseal Rat.mul Rat.inv in
/-- Alignment of the scenario-1 row against the full schema, computed
outright. -/
theorem align_scenario1 :
    alignToSchema (inputRow scenario1) fullSchema = some scenario1Vector := by
  decide

unseal Rat.mul Rat.inv in
/-- Claim C9: on the spec's scenario-1 input the aligned feature
vector holds ratio 0.2, default flag 0, indicators 1 exactly at
RENT / EDUCATION / B and 0 at every other indicator; prediction renders
one of the two decision labels, and a supported probability lies in
the unit interval. -/
theorem scenario1_end_to_end (m : Model)
    (hs : m.feature_names = some fullSchema)
    (hprob : ∀ f row, m.predict_proba = some f → 0 ≤ (f row).2 ∧ (f row).2 ≤ 1) :
    alignToSchema (inputRow scenario1) fullSchema = some scenario1Vector ∧
    Row.get scenario1Vector "debt_to_income_ratio" = 1 / 5 ∧
    Row.get scenario1Vector "cb_person_default_on_file" = 0 ∧
    Row.get scenario1Vector "person_home_ownership_RENT" = 1 ∧
    Row.get scenario1Vector "loan_intent_EDUCATION" = 1 ∧
    Row.get scenario1Vector "loan_grade_B" = 1 ∧
    (scenario1Vector.filter (fun p => decide (p.1 ∈ indicatorCols ∧ p.2 ≠ 0))).map Prod.fst
      = ["person_home_ownership_RENT", "loan_intent_EDUCATION", "loan_grade_B"] ∧
    (∃ out, predictAction m scenario1 = .ok out ∧
      (out.decision = approvedMsg ∨ out.decision = notApprovedMsg) ∧
      (∀ p, out.probaShown = some p → 0 ≤ p ∧ p ≤ 1)) := by
  refine ⟨align_scenario1, by decide, by decide, by decide, by decide, by decide,
    by decide, ?_⟩
  refine ⟨_, predictAction_some m scenario1 fullSchema hs, ?_, ?_⟩
  · by_cases h : m.predictFn (alignedRow scenario1 fullSchema) = 1
    · exact .inl (by simp [h])
    · exact .inr (by simp [h])
  · intro p hp
    cases hpp : m.predict_proba with
    | none => simp [hpp] at hp
    | some f =>
      have hb := hprob f (alignedRow scenario1 fullSchema) hpp
      simp only [hpp, Option.map_some'] at hp
      rw [Option.some_inj] at hp
      rw [← hp]
      exact hb

/-- Witness for C9 on a stub probability model over the full schema. -/
theorem scenario1_end_to_end_witness :
    alignToSchema (inputRow scenario1) fullSchema = some scenario1Vector ∧
    Row.get scenario1Vector "debt_to_income_ratio" = 1 / 5 ∧
    Row.get scenario1Vector "cb_person_default_on_file" = 0 ∧
    Row.get scenario1Vector "person_home_ownership_RENT" = 1 ∧
    Row.get scenario1Vector "loan_intent_EDUCATION" = 1 ∧
    Row.get scenario1Vector "loan_grade_B" = 1 ∧
    (scenario1Vector.filter (fun p => decide (p.1 ∈ indicatorCols ∧ p.2 ≠ 0))).map Prod.fst
      = ["person_home_ownership_RENT", "loan_intent_EDUCATION", "loan_grade_B"] ∧
    (∃ out, predictAction stubProbaModel scenario1 = .ok out ∧
      (out.decision = approvedMsg ∨ out.decision = notApprovedMsg) ∧
      (∀ p, out.probaShown = some p → 0 ≤ p ∧ p ≤ 1)) :=
  scenario1_end_to_end stubProbaModel rfl
    (by
      intro f row hf
      injection hf with hf
      subst hf
      exact ⟨by norm_num, by norm_num⟩)

/-- Claim C10: the widget minimums make the income and loan-amount
advisory warnings unreachable: any record the widgets can produce
satisfies both checks, so neither warning is ever rendered. -/
theorem widget_min_warnings_unreachable (r : ApplicantRecord)
    (h : WidgetProducible r) :
    incomeWarning ∉ warnings r ∧ loanAmtWarning ∉ warnings r := by
  unfold WidgetProducible at h
  obtain ⟨_, _, hinc, _, _, _, hloan, _⟩ := h
  constructor
  · intro hw
    rw [mem_warnings_iff] at hw
    rcases hw with ⟨_, he⟩ | ⟨hc, _⟩ | ⟨_, he⟩ | ⟨_, he⟩ | ⟨_, he⟩
    · exact absurd he (by decide)
    · exact hc hinc
    · exact absurd he (by decide)
    · exact absurd he (by decide)
    · exact absurd he (by decide)
  · intro hw
    rw [mem_warnings_iff] at hw
    rcases hw with ⟨_, he⟩ | ⟨_, he⟩ | ⟨_, he⟩ | ⟨hc, _⟩ | ⟨_, he⟩
    · exact absurd he (by decide)
    · exact absurd he (by decide)
    · exact absurd he (by decide)
    · exact hc hloan
    · exact absurd he (by decide)

unseal Rat.mul Rat.inv in
/-- Witness for C10 at the widget-default record. -/
theorem widget_min_warnings_unreachable_witness :
    WidgetProducible scenario1 ∧
    incomeWarning ∉ warnings scenario1 ∧ loanAmtWarning ∉ warnings scenario1 := by
  have hp : WidgetProducible scenario1 := by
    unfold WidgetProducible
    decide
  exact ⟨hp, (widget_min_warnings_unreachable scenario1 hp).1,
    (widget_min_warnings_unreachable scenario1 hp).2⟩

end LoanApp
